import Mathlib

/-!
Verification of the terraform-state-wrapper core against its source.

The development shallowly embeds the two source files of the repository:

* `src/pkg/wrapper/wrapper.go` — the protocol-adapter HTTP handler
  (`backendHandler`), the credential generator (`randSeq`), and the
  orchestration tail of `Wrap` (action extraction, environment publication,
  child-process exit propagation);
* `src/pkg/backends/file/backend.go` — the file-based `Backend`.

Go byte slices are `List Nat`; `net/http`'s response writer is modelled by
its observable protocol (the first `WriteHeader` fixes the status, later
calls are ignored, `Write` appends to the body and implies status 200);
`http.Error` writes the message followed by a newline, as `fmt.Fprintln`
does.  Backend methods are modelled Go-shaped, returning their values
together with an optional error string and threading an abstract backend
state.  `encoding/json`'s `Unmarshal` of a request body is modelled by the
pair of its outcome (an optional error) and the `LockInfo` value it leaves
behind, carried on the request; `Marshal` of a `LockInfo` is implemented
concretely.  All strings involved are ASCII, so bytes of a string are taken
to be its code points.
-/

/-- Go `[]byte`, one `Nat` per byte. -/
abbrev Bytes := List Nat

/-- Bytes of an ASCII string (code points; identical to UTF-8 on ASCII). -/
def strBytes (s : String) : Bytes := s.data.map Char.toNat

/-- The `LockInfo` struct of `wrapper.go`.  `Created` (`time.Time` in the
source) is modelled by the instant it denotes; the adapter never inspects
it. -/
structure LockInfo where
  ID : String
  Operation : String
  Info : String
  Who : String
  Version : String
  Created : Int
  Path : String
  deriving DecidableEq, Repr

/-- The zero value `LockInfo{}`. -/
def LockInfo.zero : LockInfo := ⟨"", "", "", "", "", 0, ""⟩

/-- JSON values, for serializing `LockInfo`. -/
inductive Json where
  | null
  | bool (b : Bool)
  | num (n : Int)
  | str (s : String)
  | arr (elems : List Json)
  | obj (fields : List (String × Json))

/-- String escaping inside a JSON string literal. -/
def jsonEscape (s : String) : String :=
  s.data.foldl (fun acc c =>
    if c = '"' then acc ++ "\\\"" else if c = '\\' then acc ++ "\\\\" else acc.push c) ""

/-- A JSON string literal. -/
def jsonQuote (s : String) : String := "\"" ++ jsonEscape s ++ "\""

mutual

/-- Rendering a JSON value to text. -/
def Json.render : Json → String
  | .null => "null"
  | .bool true => "true"
  | .bool false => "false"
  | .num n => toString n
  | .str s => jsonQuote s
  | .arr xs => "[" ++ Json.renderArr xs ++ "]"
  | .obj fs => "\x7b" ++ Json.renderObj fs ++ "\x7d"

/-- Rendering of array elements, comma separated. -/
def Json.renderArr : List Json → String
  | [] => ""
  | [x] => Json.render x
  | x :: xs => Json.render x ++ "," ++ Json.renderArr xs

/-- Rendering of object fields, comma separated. -/
def Json.renderObj : List (String × Json) → String
  | [] => ""
  | [(k, v)] => jsonQuote k ++ ":" ++ Json.render v
  | (k, v) :: fs => jsonQuote k ++ ":" ++ Json.render v ++ "," ++ Json.renderObj fs

end

/-- `json.Marshal` on a `LockInfo`: an object with the struct's exported
field names in declaration order. -/
def LockInfo.toJson (l : LockInfo) : Json :=
  .obj [("ID", .str l.ID), ("Operation", .str l.Operation), ("Info", .str l.Info),
        ("Who", .str l.Who), ("Version", .str l.Version), ("Created", .num l.Created),
        ("Path", .str l.Path)]

/-- Field lookup in a JSON object. -/
def jsonField (fs : List (String × Json)) (k : String) : Option Json :=
  match fs with
  | [] => none
  | (k', v) :: rest => if k' = k then some v else jsonField rest k

/-- Decoding a string field the way `json.Unmarshal` does: a missing field or
`null` leaves the zero value; a non-string value is a type error. -/
def jsonFieldStr (fs : List (String × Json)) (k : String) : Except String String :=
  match jsonField fs k with
  | none => .ok ""
  | some (.str s) => .ok s
  | some .null => .ok ""
  | some _ => .error ("cannot unmarshal JSON value into string field " ++ k)

/-- Decoding the `Created` field. -/
def jsonFieldNum (fs : List (String × Json)) (k : String) : Except String Int :=
  match jsonField fs k with
  | none => .ok 0
  | some (.num n) => .ok n
  | some .null => .ok 0
  | some _ => .error ("cannot unmarshal JSON value into numeric field " ++ k)

/-- `json.Unmarshal` of a JSON value into a `LockInfo`. -/
def LockInfo.fromJson : Json → Except String LockInfo
  | .obj fs => do
    let id ← jsonFieldStr fs "ID"
    let operation ← jsonFieldStr fs "Operation"
    let info ← jsonFieldStr fs "Info"
    let who ← jsonFieldStr fs "Who"
    let version ← jsonFieldStr fs "Version"
    let created ← jsonFieldNum fs "Created"
    let path ← jsonFieldStr fs "Path"
    pure ⟨id, operation, info, who, version, created, path⟩
  | _ => .error "cannot unmarshal JSON value into LockInfo"

/-- The bytes `json.Marshal(lock)` produces. -/
def jsonMarshal (l : LockInfo) : Bytes := strBytes (Json.render l.toJson)

/-- The observable state of `http.ResponseWriter`: the status fixed by the
first `WriteHeader` (if any) and the accumulated body. -/
structure ResponseWriter where
  status : Option Nat
  body : Bytes
  deriving DecidableEq, Repr

/-- The writer a request starts with. -/
def ResponseWriter.empty : ResponseWriter := ⟨none, []⟩

/-- `WriteHeader`: the first call fixes the status, later calls are
superfluous and ignored. -/
def ResponseWriter.writeHeader (w : ResponseWriter) (code : Nat) : ResponseWriter :=
  match w.status with
  | some _ => w
  | none => ⟨some code, w.body⟩

/-- `Write`: an implicit `WriteHeader(200)` when no status is fixed yet, then
append to the body. -/
def ResponseWriter.write (w : ResponseWriter) (data : Bytes) : ResponseWriter :=
  let w' := w.writeHeader 200
  ⟨w'.status, w'.body ++ data⟩

/-- `http.Error(w, msg, code)`: `WriteHeader(code)` then `Fprintln` of the
message, which appends a newline. -/
def httpError (w : ResponseWriter) (msg : String) (code : Nat) : ResponseWriter :=
  (w.writeHeader code).write (strBytes (msg ++ "\n"))

/-- The `Backend` interface of `wrapper.go`, Go-shaped: each method returns
its results together with an optional error string, threading an abstract
backend state `σ`.  `get` returns `(data, err)` where `none` data with no
error means "absent"; `lock` returns `(ok, lock, err)`. -/
structure BackendOps (σ : Type) where
  get : σ → (Option Bytes × Option String) × σ
  set : σ → Bytes → String → String → Option String × σ
  delete : σ → Option String × σ
  lock : σ → LockInfo → (Bool × LockInfo × Option String) × σ
  unlock : σ → LockInfo → Option String × σ
  lockable : Bool

/-- An HTTP request as `backendHandler` observes it.  `basicAuth` is
`request.BasicAuth()` (`none` when absent or malformed); `body` the full
body bytes; `queryID` is `request.URL.Query().Get("ID")` (the empty string
when the parameter is absent).  `lockErr` and `lockData` model the effect of
`json.Unmarshal(body, &lockData)` in the LOCK/UNLOCK branch: the optional
decode error, and the value the unmarshal leaves in `lockData` (the decoded
value on success; the zero value or a partially filled one on failure). -/
structure Request where
  method : String
  basicAuth : Option (String × String)
  body : Bytes
  queryID : String
  lockErr : Option String
  lockData : LockInfo

/-- One call into the backend, with its arguments. -/
inductive Call where
  | get
  | set (data : Bytes) (lockID comment : String)
  | delete
  | lock (info : LockInfo)
  | unlock (info : LockInfo)
  deriving DecidableEq, Repr

/-- What one request produces: the response written, the backend state after
the request, and the backend calls made, in order. -/
structure HandlerResult (σ : Type) where
  writer : ResponseWriter
  state : σ
  calls : List Call

/-- The comment `backendHandler` builds once per handler:
`fmt.Sprintf("updated with terraform '%s' by '%s'", action, systemUser.Name)`. -/
def commentFor (action userName : String) : String :=
  "updated with terraform '" ++ action ++ "' by '" ++ userName ++ "'"

/-- The credential check at the top of the handler closure:
`request.BasicAuth()` must succeed and both parts must match. -/
def authOk (r : Request) (authUser authPassword : String) : Bool :=
  match r.basicAuth with
  | some (u, p) => u == authUser && p == authPassword
  | none => false

/-- The `http.MethodGet` case of the handler's switch. -/
def handleGet {σ : Type} (b : BackendOps σ) (w : ResponseWriter) (s : σ) :
    HandlerResult σ :=
  match b.get s with
  | ((data, err), s) =>
    let w := match err with
      | some e => httpError w e 500
      | none => w
    match data with
    | none => ⟨w.writeHeader 404, s, [Call.get]⟩
    | some d => ⟨(w.writeHeader 200).write d, s, [Call.get]⟩

/-- The `http.MethodPost` case: read the whole body, take the lock ID from
the `ID` query parameter, call `Set`. -/
def handlePost {σ : Type} (b : BackendOps σ) (comment : String) (r : Request)
    (w : ResponseWriter) (s : σ) : HandlerResult σ :=
  match b.set s r.body r.queryID comment with
  | (err, s) =>
    let w := match err with
      | some e => httpError w e 500
      | none => w
    ⟨w.writeHeader 200, s, [Call.set r.body r.queryID comment]⟩

/-- The `http.MethodDelete` case. -/
def handleDelete {σ : Type} (b : BackendOps σ) (w : ResponseWriter) (s : σ) :
    HandlerResult σ :=
  match b.delete s with
  | (err, s) =>
    let w := match err with
      | some e => httpError w e 500
      | none => w
    ⟨w.writeHeader 200, s, [Call.delete]⟩

/-- The `LOCK`/`UNLOCK` switch reached when `backend.Lockable()` is true:
read the body, unmarshal it into `lockData` (a decode error is written as a
500 but does not return), then call `Lock` or `UnLock`.  A denied lock
writes 409 and the holder marshalled as JSON; the `WriteHeader(200)` at the
end is superfluous whenever a status was already written. -/
def handleLock {σ : Type} (b : BackendOps σ) (r : Request) (w : ResponseWriter)
    (s : σ) : HandlerResult σ :=
  let w := match r.lockErr with
    | some e => httpError w e 500
    | none => w
  if r.method = "LOCK" then
    match b.lock s r.lockData with
    | ((ok, lockCur, err), s) =>
      let w := match err with
        | some e => httpError w e 500
        | none => w
      let w := if ok then w else (w.writeHeader 409).write (jsonMarshal lockCur)
      ⟨w.writeHeader 200, s, [Call.lock r.lockData]⟩
  else
    match b.unlock s r.lockData with
    | (err, s) =>
      let w := match err with
        | some e => httpError w e 500
        | none => w
      ⟨w.writeHeader 200, s, [Call.unlock r.lockData]⟩

/-- The method dispatch of the handler after the credential check: the
switch over GET/POST/DELETE, then the lockable LOCK/UNLOCK switch, then the
final `http.Error(w, "invalid method", 405)`. -/
def dispatch {σ : Type} (b : BackendOps σ) (comment : String) (r : Request)
    (w : ResponseWriter) (s : σ) : HandlerResult σ :=
  if r.method = "GET" then handleGet b w s
  else if r.method = "POST" then handlePost b comment r w s
  else if r.method = "DELETE" then handleDelete b w s
  else if b.lockable = true ∧ (r.method = "LOCK" ∨ r.method = "UNLOCK") then
    handleLock b r w s
  else ⟨httpError w "invalid method" 405, s, []⟩

/-- The handler closure `backendHandler` returns: check Basic credentials,
write 401 on mismatch without returning, then dispatch on the method. -/
def backendHandler {σ : Type} (b : BackendOps σ) (action userName authUser authPassword : String)
    (r : Request) (s : σ) : HandlerResult σ :=
  let comment := commentFor action userName
  let w := ResponseWriter.empty
  let w := if authOk r authUser authPassword then w else httpError w "Unauthorized" 401
  dispatch b comment r w s

/-- The letter alphabet of `wrapper.go`:
`abcdefghijklmnopqrstuvwxyzABCDEFGHIJKLMNOPQRSTUVWXYZ`. -/
def letters : List Char :=
  ['a', 'b', 'c', 'd', 'e', 'f', 'g', 'h', 'i', 'j', 'k', 'l', 'm',
   'n', 'o', 'p', 'q', 'r', 's', 't', 'u', 'v', 'w', 'x', 'y', 'z',
   'A', 'B', 'C', 'D', 'E', 'F', 'G', 'H', 'I', 'J', 'K', 'L', 'M',
   'N', 'O', 'P', 'Q', 'R', 'S', 'T', 'U', 'V', 'W', 'X', 'Y', 'Z']

/-- `randSeq(n)`: one letter per position, indexed by the time-seeded
generator's successive `Intn(len(letters))` draws.  `intn i` models the
`i`-th draw; the reduction modulo `letters.length` encodes `Intn`'s range
contract (its result is always below its argument). -/
def randSeq (intn : Nat → Nat) (n : Nat) : String :=
  String.mk ((List.range n).map fun i =>
    letters.get ⟨intn i % letters.length, Nat.mod_lt _ (by decide)⟩)

/-- The fixed session username `Wrap` uses: `authUser := "auth"`. -/
def wrapAuthUser : String := "auth"

/-- The session password `Wrap` generates: `authPassword := randSeq(32)`. -/
def wrapAuthPassword (intn : Nat → Nat) : String := randSeq intn 32

/-- The loop over `args` in `Wrap` that picks `terraformAction`: the first
argument that is non-empty and does not start with `-`; the empty string
when there is none. -/
def terraformAction : List String → String
  | [] => ""
  | arg :: rest =>
    match arg.data with
    | [] => terraformAction rest
    | c :: _ => if c = '-' then terraformAction rest else arg

/-- A process environment, as an association list in insertion order. -/
abbrev Env := List (String × String)

/-- `os.Setenv`: replace the binding of `k` when present, append otherwise. -/
def setenv (env : Env) (k v : String) : Env :=
  match env with
  | [] => [(k, v)]
  | (k', v') :: rest => if k' = k then (k, v) :: rest else (k', v') :: setenv rest k v

/-- `os.LookupEnv`. -/
def lookupEnv (env : Env) (k : String) : Option String :=
  match env with
  | [] => none
  | (k', v) :: rest => if k' = k then some v else lookupEnv rest k

/-- The `os.Setenv` sequence in `Wrap`: address, username and password
always, and when `backend.Lockable()` also the lock and unlock addresses,
all with the backend URL.  Note these are `os.Setenv` calls: they mutate
this (the parent) process's own environment, which the child then inherits
because `exec.CommandContext` is given no explicit environment. -/
def publishEnv (env : Env) (address authUser authPassword : String)
    (lockable : Bool) : Env :=
  let env := setenv env "TF_HTTP_ADDRESS" address
  let env := setenv env "TF_HTTP_USERNAME" authUser
  let env := setenv env "TF_HTTP_PASSWORD" authPassword
  if lockable then
    setenv (setenv env "TF_HTTP_LOCK_ADDRESS" address) "TF_HTTP_UNLOCK_ADDRESS" address
  else env

/-- The environment `exec.CommandContext` gives the child when `cmd.Env` is
left nil: the parent's environment at spawn time. -/
def childEnv (parentEnv : Env) : Env := parentEnv

/-- The outcome of `terraform.Run()` as `Wrap` distinguishes it: nil error,
an `exec.ExitError` carrying the child's exit code, or another error. -/
inductive RunResult where
  | success
  | exitError (code : Nat)
  | otherError (msg : String)
  deriving DecidableEq, Repr

/-- What `exec.Cmd.Run` returns for a child that ran to completion and
exited with `code`: nil exactly when the exit status is zero, otherwise an
`exec.ExitError` with that status. -/
def childExit (code : Nat) : RunResult :=
  if code = 0 then RunResult.success else RunResult.exitError code

/-- How the wrapper process ends. -/
inductive WrapOutcome where
  | exited (code : Nat)
  | fatal (msg : String)
  deriving DecidableEq, Repr

/-- The usage message of the final `log.Fatal`. -/
def usageMsg : String := "usage: ./wrapper terraform plan|apply|validate..."

/-- The tail of `Wrap`: when arguments were given, run the child and map
`Run`'s result (`os.Exit(exitErr.ExitCode())` on an `ExitError`,
`log.Fatal` on any other error, `os.Exit(0)` otherwise); with no arguments,
`log.Fatal` with the usage message.  `run` is the result `terraform.Run()`
would produce. -/
def runChild (args : List String) (run : RunResult) : WrapOutcome :=
  if 0 < args.length then
    match run with
    | RunResult.exitError code => WrapOutcome.exited code
    | RunResult.otherError msg => WrapOutcome.fatal msg
    | RunResult.success => WrapOutcome.exited 0
  else WrapOutcome.fatal usageMsg

/-- A file system: contents per path. -/
abbrev FS := List (String × Bytes)

/-- Reading a file: `none` models `os.ErrNotExist`. -/
def fsRead (fs : FS) (path : String) : Option Bytes :=
  match fs with
  | [] => none
  | (p, d) :: rest => if p = path then some d else fsRead rest path

/-- `os.WriteFile`: create or truncate. -/
def fsWrite (fs : FS) (path : String) (data : Bytes) : FS :=
  match fs with
  | [] => [(path, data)]
  | (p, d) :: rest => if p = path then (path, data) :: rest else (p, d) :: fsWrite rest path data

/-- The file backend of `backend.go`: its one field. -/
structure FileBackend where
  filePath : String

/-- `file.Backend.Config`: read `TF_STATE_WRAPPER_FILE_PATH` or fail. -/
def fileConfig (env : Env) (b : FileBackend) : Except String FileBackend :=
  match lookupEnv env "TF_STATE_WRAPPER_FILE_PATH" with
  | some value => .ok { b with filePath := value }
  | none => .error "'TF_STATE_WRAPPER_FILE_PATH' must be set"

/-- `file.Backend.Get`: stat, absent is `(nil, nil)`, otherwise read. -/
def fileGet (b : FileBackend) (fs : FS) : (Option Bytes × Option String) × FS :=
  match fsRead fs b.filePath with
  | none => ((none, none), fs)
  | some d => ((some d, none), fs)

/-- `file.Backend.Set`: `os.WriteFile(f.filePath, data, 0644)`; the `lockID`
and `comment` parameters do not occur in its body. -/
def fileSet (b : FileBackend) (fs : FS) (data : Bytes) (lockID comment : String) :
    Option String × FS :=
  (none, fsWrite fs b.filePath data)

/-- `file.Backend.Delete`: absent is success, otherwise remove. -/
def fileDelete (b : FileBackend) (fs : FS) : Option String × FS :=
  match fsRead fs b.filePath with
  | none => (none, fs)
  | some _ => (none, (fs.filter fun pd => ¬ pd.1 = b.filePath))

/-- The file backend as `BackendOps` over the file-system state: `Lock`
always returns `(false, LockInfo{}, nil)`, `UnLock` nil, `Lockable` false. -/
def fileBackendOps (b : FileBackend) : BackendOps FS :=
  { get := fun fs => fileGet b fs
    set := fun fs data lockID comment => fileSet b fs data lockID comment
    delete := fun fs => fileDelete b fs
    lock := fun fs _ => ((false, LockInfo.zero, none), fs)
    unlock := fun fs _ => (none, fs)
    lockable := false }

/-- A concrete lock holder used to exercise the handler at concrete inputs. -/
def holderLock : LockInfo := ⟨"lock-1", "apply", "", "user@host", "1.5.0", 1, "terraform.tfstate"⟩

/-- A concrete lockable backend whose `Lock` always grants. -/
def grantBackend : BackendOps Unit :=
  { get := fun s => ((some [115, 116], none), s)
    set := fun s _ _ _ => (none, s)
    delete := fun s => (none, s)
    lock := fun s _ => ((true, LockInfo.zero, none), s)
    unlock := fun s _ => (none, s)
    lockable := true }

/-- A concrete lockable backend whose `Lock` always denies, reporting
`holderLock` as the current holder. -/
def denyBackend : BackendOps Unit :=
  { get := fun s => ((none, none), s)
    set := fun s _ _ _ => (none, s)
    delete := fun s => (none, s)
    lock := fun s _ => ((false, holderLock, none), s)
    unlock := fun s _ => (none, s)
    lockable := true }

/-- The Basic credentials matching session user `auth`, password `pw`. -/
def authedHeader : Option (String × String) := some ("auth", "pw")

/-- A GET request with no credentials at all. -/
def anonReq : Request := ⟨"GET", none, [], "", none, LockInfo.zero⟩

/-- An authenticated GET request. -/
def getReq : Request := ⟨"GET", authedHeader, [], "", none, LockInfo.zero⟩

/-- An authenticated POST request with body bytes `[115, 49]` and lock ID
`lock-1`. -/
def postReq : Request := ⟨"POST", authedHeader, [115, 49], "lock-1", none, LockInfo.zero⟩

/-- An authenticated LOCK request whose body decoded to `holderLock`. -/
def lockReq : Request := ⟨"LOCK", authedHeader, jsonMarshal holderLock, "", none, holderLock⟩

/-- An authenticated LOCK request whose body failed to decode: `lockErr`
carries the decode error, `lockData` stays the zero value. -/
def badLockReq : Request :=
  ⟨"LOCK", authedHeader, [123], "", some "unexpected end of JSON input", LockInfo.zero⟩

theorem writeHeader_status_some (w : ResponseWriter) (code c : Nat)
    (h : w.status = some c) : (w.writeHeader code).status = some c := by
  simp [ResponseWriter.writeHeader, h]

theorem write_status_some (w : ResponseWriter) (d : Bytes) (c : Nat)
    (h : w.status = some c) : (w.write d).status = some c := by
  simp [ResponseWriter.write]
  exact writeHeader_status_some w 200 c h

theorem httpError_status_some (w : ResponseWriter) (msg : String) (code c : Nat)
    (h : w.status = some c) : (httpError w msg code).status = some c :=
  write_status_some _ _ _ (writeHeader_status_some w code c h)

theorem writeHeader_body (w : ResponseWriter) (code : Nat) :
    (w.writeHeader code).body = w.body := by
  cases h : w.status <;> simp [ResponseWriter.writeHeader, h]

theorem write_body (w : ResponseWriter) (d : Bytes) :
    (w.write d).body = w.body ++ d := by
  simp [ResponseWriter.write, writeHeader_body]

theorem httpError_body (w : ResponseWriter) (msg : String) (code : Nat) :
    (httpError w msg code).body = w.body ++ strBytes (msg ++ "\n") := by
  simp [httpError, write_body, writeHeader_body]

theorem httpError_empty (msg : String) (code : Nat) :
    httpError ResponseWriter.empty msg code = ⟨some code, strBytes (msg ++ "\n")⟩ := by
  simp [httpError, ResponseWriter.empty, ResponseWriter.writeHeader, ResponseWriter.write]

theorem handleGet_calls {σ : Type} (b : BackendOps σ) (w : ResponseWriter) (s : σ) :
    (handleGet b w s).calls = [Call.get] := by
  rcases h : b.get s with ⟨⟨data, err⟩, s'⟩
  cases data <;> cases err <;> simp [handleGet, h]

theorem handleGet_state {σ : Type} (b : BackendOps σ) (w : ResponseWriter) (s : σ) :
    (handleGet b w s).state = (b.get s).2 := by
  rcases h : b.get s with ⟨⟨data, err⟩, s'⟩
  cases data <;> cases err <;> simp [handleGet, h]

theorem handleGet_status_some {σ : Type} (b : BackendOps σ) (w : ResponseWriter)
    (s : σ) (c : Nat) (h : w.status = some c) :
    (handleGet b w s).writer.status = some c := by
  rcases hg : b.get s with ⟨⟨data, err⟩, s'⟩
  cases data <;> cases err <;> simp only [handleGet, hg] <;>
    first
    | exact writeHeader_status_some _ _ _ h
    | exact writeHeader_status_some _ _ _ (httpError_status_some _ _ _ _ h)
    | exact write_status_some _ _ _ (writeHeader_status_some _ _ _ h)
    | exact write_status_some _ _ _
        (writeHeader_status_some _ _ _ (httpError_status_some _ _ _ _ h))

theorem handlePost_calls {σ : Type} (b : BackendOps σ) (comment : String)
    (r : Request) (w : ResponseWriter) (s : σ) :
    (handlePost b comment r w s).calls = [Call.set r.body r.queryID comment] := by
  rcases h : b.set s r.body r.queryID comment with ⟨err, s'⟩
  cases err <;> simp [handlePost, h]

theorem handlePost_state {σ : Type} (b : BackendOps σ) (comment : String)
    (r : Request) (w : ResponseWriter) (s : σ) :
    (handlePost b comment r w s).state = (b.set s r.body r.queryID comment).2 := by
  rcases h : b.set s r.body r.queryID comment with ⟨err, s'⟩
  cases err <;> simp [handlePost, h]

theorem handlePost_status_some {σ : Type} (b : BackendOps σ) (comment : String)
    (r : Request) (w : ResponseWriter) (s : σ) (c : Nat) (h : w.status = some c) :
    (handlePost b comment r w s).writer.status = some c := by
  rcases hs : b.set s r.body r.queryID comment with ⟨err, s'⟩
  cases err <;> simp [handlePost, hs, writeHeader_status_some, h]
  exact writeHeader_status_some _ _ _ (httpError_status_some _ _ _ _ h)

theorem handleDelete_calls {σ : Type} (b : BackendOps σ) (w : ResponseWriter) (s : σ) :
    (handleDelete b w s).calls = [Call.delete] := by
  rcases h : b.delete s with ⟨err, s'⟩
  cases err <;> simp [handleDelete, h]

theorem handleDelete_state {σ : Type} (b : BackendOps σ) (w : ResponseWriter) (s : σ) :
    (handleDelete b w s).state = (b.delete s).2 := by
  rcases h : b.delete s with ⟨err, s'⟩
  cases err <;> simp [handleDelete, h]

theorem handleDelete_status_some {σ : Type} (b : BackendOps σ) (w : ResponseWriter)
    (s : σ) (c : Nat) (h : w.status = some c) :
    (handleDelete b w s).writer.status = some c := by
  rcases hd : b.delete s with ⟨err, s'⟩
  cases err <;> simp [handleDelete, hd, writeHeader_status_some, h]
  exact writeHeader_status_some _ _ _ (httpError_status_some _ _ _ _ h)

theorem handleLock_calls {σ : Type} (b : BackendOps σ) (r : Request)
    (w : ResponseWriter) (s : σ) :
    (handleLock b r w s).calls =
      if r.method = "LOCK" then [Call.lock r.lockData] else [Call.unlock r.lockData] := by
  by_cases hm : r.method = "LOCK"
  · rcases hl : b.lock s r.lockData with ⟨⟨ok, lcur, err⟩, s'⟩
    cases ok <;> cases err <;> cases hle : r.lockErr <;>
      simp [handleLock, hm, hl, hle]
  · rcases hu : b.unlock s r.lockData with ⟨err, s'⟩
    cases err <;> cases hle : r.lockErr <;> simp [handleLock, hm, hu, hle]

theorem handleLock_state {σ : Type} (b : BackendOps σ) (r : Request)
    (w : ResponseWriter) (s : σ) :
    (handleLock b r w s).state =
      if r.method = "LOCK" then (b.lock s r.lockData).2 else (b.unlock s r.lockData).2 := by
  by_cases hm : r.method = "LOCK"
  · rcases hl : b.lock s r.lockData with ⟨⟨ok, lcur, err⟩, s'⟩
    cases ok <;> cases err <;> cases hle : r.lockErr <;>
      simp [handleLock, hm, hl, hle]
  · rcases hu : b.unlock s r.lockData with ⟨err, s'⟩
    cases err <;> cases hle : r.lockErr <;> simp [handleLock, hm, hu, hle]

theorem handleLock_status_some {σ : Type} (b : BackendOps σ) (r : Request)
    (w : ResponseWriter) (s : σ) (c : Nat) (h : w.status = some c) :
    (handleLock b r w s).writer.status = some c := by
  have hbase : ∀ w' : ResponseWriter, w'.status = some c →
      ∀ m : Option String, (match m with
        | some e => httpError w' e 500
        | none => w').status = some c := by
    intro w' hw' m
    cases m <;> simp [hw', httpError_status_some _ _ _ _ hw']
  by_cases hm : r.method = "LOCK"
  · rcases hl : b.lock s r.lockData with ⟨⟨ok, lcur, err⟩, s'⟩
    cases ok <;> cases err <;> cases hle : r.lockErr <;>
      simp [handleLock, hm, hl, hle] <;>
      first
      | exact writeHeader_status_some _ _ _ h
      | exact writeHeader_status_some _ _ _ (httpError_status_some _ _ _ _ h)
      | exact writeHeader_status_some _ _ _
          (write_status_some _ _ _ (writeHeader_status_some _ _ _ h))
      | exact writeHeader_status_some _ _ _
          (write_status_some _ _ _ (writeHeader_status_some _ _ _
            (httpError_status_some _ _ _ _ h)))
      | exact writeHeader_status_some _ _ _
          (httpError_status_some _ _ _ _ (httpError_status_some _ _ _ _ h))
      | exact writeHeader_status_some _ _ _
          (write_status_some _ _ _ (writeHeader_status_some _ _ _
            (httpError_status_some _ _ _ _ (httpError_status_some _ _ _ _ h))))
  · rcases hu : b.unlock s r.lockData with ⟨err, s'⟩
    cases err <;> cases hle : r.lockErr <;>
      simp [handleLock, hm, hu, hle] <;>
      first
      | exact writeHeader_status_some _ _ _ h
      | exact writeHeader_status_some _ _ _ (httpError_status_some _ _ _ _ h)
      | exact writeHeader_status_some _ _ _
          (httpError_status_some _ _ _ _ (httpError_status_some _ _ _ _ h))

theorem dispatch_calls_state {σ : Type} (b : BackendOps σ) (comment : String)
    (r : Request) (s : σ) (w₁ w₂ : ResponseWriter) :
    (dispatch b comment r w₁ s).calls = (dispatch b comment r w₂ s).calls ∧
    (dispatch b comment r w₁ s).state = (dispatch b comment r w₂ s).state := by
  unfold dispatch
  by_cases h1 : r.method = "GET"
  · simp [h1, handleGet_calls, handleGet_state]
  · by_cases h2 : r.method = "POST"
    · simp [h1, h2, handlePost_calls, handlePost_state]
    · by_cases h3 : r.method = "DELETE"
      · simp [h1, h2, h3, handleDelete_calls, handleDelete_state]
      · by_cases h4 : b.lockable = true ∧ (r.method = "LOCK" ∨ r.method = "UNLOCK")
        · simp [h1, h2, h3, h4, handleLock_calls, handleLock_state]
        · simp [h1, h2, h3, h4]

theorem dispatch_status_some {σ : Type} (b : BackendOps σ) (comment : String)
    (r : Request) (w : ResponseWriter) (s : σ) (c : Nat) (h : w.status = some c) :
    (dispatch b comment r w s).writer.status = some c := by
  unfold dispatch
  by_cases h1 : r.method = "GET"
  · simp only [h1, if_true]
    exact handleGet_status_some b w s c h
  · by_cases h2 : r.method = "POST"
    · simp only [h1, h2, if_false, if_true]
      exact handlePost_status_some b comment r w s c h
    · by_cases h3 : r.method = "DELETE"
      · simp only [h1, h2, h3, if_false, if_true]
        exact handleDelete_status_some b w s c h
      · by_cases h4 : b.lockable = true ∧ (r.method = "LOCK" ∨ r.method = "UNLOCK")
        · simp only [h1, h2, h3, h4, if_false, if_true]
          exact handleLock_status_some b r w s c h
        · simp only [h1, h2, h3, h4, if_false]
          exact httpError_status_some _ _ _ _ h

theorem dispatch_basicAuth_irrelevant {σ : Type} (b : BackendOps σ) (comment : String)
    (r : Request) (cred : Option (String × String)) (w : ResponseWriter) (s : σ) :
    dispatch b comment { r with basicAuth := cred } w s = dispatch b comment r w s := rfl

/-- C1: a request whose Basic credentials are missing or do not match the
session's generated username and password is answered 401 Unauthorized, but
the handler does not terminate the request: the method dispatch still runs,
so exactly the same backend calls are made, and the backend state evolves
exactly as it does for the same request carrying matching credentials. -/
theorem claim1_unauthorized_request_continues {σ : Type} (b : BackendOps σ)
    (action userName authUser authPassword : String) (r : Request) (s : σ)
    (h : authOk r authUser authPassword = false) :
    (backendHandler b action userName authUser authPassword r s).writer.status = some 401 ∧
    (backendHandler b action userName authUser authPassword r s).calls =
      (backendHandler b action userName authUser authPassword
        { r with basicAuth := some (authUser, authPassword) } s).calls ∧
    (backendHandler b action userName authUser authPassword r s).state =
      (backendHandler b action userName authUser authPassword
        { r with basicAuth := some (authUser, authPassword) } s).state := by
  have hauth' : authOk { r with basicAuth := some (authUser, authPassword) }
      authUser authPassword = true := by
    simp [authOk]
  simp only [backendHandler, h, hauth', Bool.false_eq_true, if_false, if_true,
    dispatch_basicAuth_irrelevant]
  refine ⟨?_, ?_, ?_⟩
  · exact dispatch_status_some _ _ _ _ _ _ (by rw [httpError_empty])
  · exact (dispatch_calls_state b _ r s _ ResponseWriter.empty).1
  · exact (dispatch_calls_state b _ r s _ ResponseWriter.empty).2

/-- Witness for C1: the unauthenticated GET `anonReq` against `grantBackend`
gets status 401 while producing the same backend call and state as its
authenticated copy. -/
theorem claim1_witness :
    (backendHandler grantBackend "plan" "root" "auth" "pw" anonReq ()).writer.status = some 401 ∧
    (backendHandler grantBackend "plan" "root" "auth" "pw" anonReq ()).calls =
      (backendHandler grantBackend "plan" "root" "auth" "pw"
        { anonReq with basicAuth := some ("auth", "pw") } ()).calls ∧
    (backendHandler grantBackend "plan" "root" "auth" "pw" anonReq ()).state =
      (backendHandler grantBackend "plan" "root" "auth" "pw"
        { anonReq with basicAuth := some ("auth", "pw") } ()).state :=
  claim1_unauthorized_request_continues grantBackend "plan" "root" "auth" "pw" anonReq () rfl

/-- C2: an authenticated POST makes exactly one backend call, `Set` with the
full request body, the `ID` query parameter as the lock ID, and the comment
`updated with terraform '<action>' by '<user display name>'` where the
action is the first non-flag child argument (empty when there is none); on
`Set` success the response is 200 with empty body, on failure a 500 whose
body is the error text (plus the newline `http.Error` appends). -/
theorem claim2_post_calls_set_once {σ : Type} (b : BackendOps σ) (args : List String)
    (userName authUser authPassword : String) (r : Request) (s : σ)
    (hauth : authOk r authUser authPassword = true) (hm : r.method = "POST") :
    (backendHandler b (terraformAction args) userName authUser authPassword r s).calls =
      [Call.set r.body r.queryID (commentFor (terraformAction args) userName)] ∧
    (∀ s', b.set s r.body r.queryID (commentFor (terraformAction args) userName) = (none, s') →
      (backendHandler b (terraformAction args) userName authUser authPassword r s).writer =
        ⟨some 200, []⟩) ∧
    (∀ e s', b.set s r.body r.queryID (commentFor (terraformAction args) userName) = (some e, s') →
      (backendHandler b (terraformAction args) userName authUser authPassword r s).writer =
        ⟨some 500, strBytes (e ++ "\n")⟩) := by
  simp only [backendHandler, hauth, if_true, dispatch, hm]
  refine ⟨?_, ?_, ?_⟩
  · exact handlePost_calls b _ r ResponseWriter.empty s
  · intro s' hset
    simp [handlePost, hset, ResponseWriter.empty, ResponseWriter.writeHeader]
  · intro e s' hset
    simp [handlePost, hset, httpError_empty, ResponseWriter.writeHeader]

/-- Witness for C2: the authenticated `postReq` against the file backend,
with child arguments `-chdir=x plan`, makes exactly the `Set` call with the
comment naming action `plan`, and gets a 200 with empty body. -/
theorem claim2_witness :
    (backendHandler (fileBackendOps ⟨"st"⟩) (terraformAction ["-chdir=x", "plan"]) "root"
        "auth" "pw" postReq []).calls =
      [Call.set postReq.body postReq.queryID
        (commentFor (terraformAction ["-chdir=x", "plan"]) "root")] ∧
    (∀ s', (fileBackendOps ⟨"st"⟩).set [] postReq.body postReq.queryID
        (commentFor (terraformAction ["-chdir=x", "plan"]) "root") = (none, s') →
      (backendHandler (fileBackendOps ⟨"st"⟩) (terraformAction ["-chdir=x", "plan"]) "root"
        "auth" "pw" postReq []).writer = ⟨some 200, []⟩) ∧
    (∀ e s', (fileBackendOps ⟨"st"⟩).set [] postReq.body postReq.queryID
        (commentFor (terraformAction ["-chdir=x", "plan"]) "root") = (some e, s') →
      (backendHandler (fileBackendOps ⟨"st"⟩) (terraformAction ["-chdir=x", "plan"]) "root"
        "auth" "pw" postReq []).writer = ⟨some 500, strBytes (e ++ "\n")⟩) :=
  claim2_post_calls_set_once (fileBackendOps ⟨"st"⟩) ["-chdir=x", "plan"] "root"
    "auth" "pw" postReq [] rfl rfl

/-- C3: an authenticated GET calls `Get` and maps its result: absent state
is a 404 with empty body, present state a 200 whose body is exactly the raw
payload bytes, and a backend error a 500 whose body is the error text (plus
the newline `http.Error` appends). -/
theorem claim3_get_maps_result {σ : Type} (b : BackendOps σ)
    (action userName authUser authPassword : String) (r : Request) (s : σ)
    (hauth : authOk r authUser authPassword = true) (hm : r.method = "GET") :
    (backendHandler b action userName authUser authPassword r s).calls = [Call.get] ∧
    (∀ s', b.get s = ((none, none), s') →
      (backendHandler b action userName authUser authPassword r s).writer = ⟨some 404, []⟩) ∧
    (∀ d s', b.get s = ((some d, none), s') →
      (backendHandler b action userName authUser authPassword r s).writer = ⟨some 200, d⟩) ∧
    (∀ e s', b.get s = ((none, some e), s') →
      (backendHandler b action userName authUser authPassword r s).writer =
        ⟨some 500, strBytes (e ++ "\n")⟩) := by
  simp only [backendHandler, hauth, if_true, dispatch, hm]
  refine ⟨handleGet_calls b ResponseWriter.empty s, ?_, ?_, ?_⟩
  · intro s' hget
    simp [handleGet, hget, ResponseWriter.empty, ResponseWriter.writeHeader]
  · intro d s' hget
    simp [handleGet, hget, ResponseWriter.empty, ResponseWriter.writeHeader,
      ResponseWriter.write]
  · intro e s' hget
    simp [handleGet, hget, httpError_empty, ResponseWriter.writeHeader]

/-- Witness for C3: the authenticated `getReq` against `grantBackend`, whose
state holds the bytes `[115, 116]`, produces the `Get` call and a 200 whose
body is those bytes. -/
theorem claim3_witness :
    (backendHandler grantBackend "plan" "root" "auth" "pw" getReq ()).calls = [Call.get] ∧
    (∀ s', grantBackend.get () = ((none, none), s') →
      (backendHandler grantBackend "plan" "root" "auth" "pw" getReq ()).writer =
        ⟨some 404, []⟩) ∧
    (∀ d s', grantBackend.get () = ((some d, none), s') →
      (backendHandler grantBackend "plan" "root" "auth" "pw" getReq ()).writer =
        ⟨some 200, d⟩) ∧
    (∀ e s', grantBackend.get () = ((none, some e), s') →
      (backendHandler grantBackend "plan" "root" "auth" "pw" getReq ()).writer =
        ⟨some 500, strBytes (e ++ "\n")⟩) :=
  claim3_get_maps_result grantBackend "plan" "root" "auth" "pw" getReq () rfl rfl

/-- C4: for an authenticated LOCK request, a non-lockable backend gets a 405
whose body is `invalid method` (with the newline `http.Error` appends); on a
lockable backend a granted lock is a 200 with empty body, and a denied lock
a 409 whose body is the current holder's `LockInfo` marshalled as JSON, a
serialization from which unmarshalling recovers every field exactly. -/
theorem claim4_lock_grant_deny {σ : Type} (b : BackendOps σ)
    (action userName authUser authPassword : String) (r : Request) (s : σ)
    (hauth : authOk r authUser authPassword = true) (hm : r.method = "LOCK") :
    (b.lockable = false →
      (backendHandler b action userName authUser authPassword r s).writer =
        ⟨some 405, strBytes ("invalid method" ++ "\n")⟩) ∧
    (b.lockable = true → r.lockErr = none →
      (∀ lcur s', b.lock s r.lockData = ((true, lcur, none), s') →
        (backendHandler b action userName authUser authPassword r s).writer =
          ⟨some 200, []⟩) ∧
      (∀ lcur s', b.lock s r.lockData = ((false, lcur, none), s') →
        (backendHandler b action userName authUser authPassword r s).writer =
          ⟨some 409, jsonMarshal lcur⟩ ∧
        LockInfo.fromJson (LockInfo.toJson lcur) = Except.ok lcur)) := by
  constructor
  · intro hlk
    simp only [backendHandler, hauth, if_true, dispatch, hm, hlk]
    simp [httpError_empty]
  · intro hlk hle
    constructor
    · intro lcur s' hlock
      simp only [backendHandler, hauth, if_true, dispatch, hm, hlk]
      simp [handleLock, hm, hle, hlock, ResponseWriter.empty, ResponseWriter.writeHeader]
    · intro lcur s' hlock
      refine ⟨?_, rfl⟩
      simp only [backendHandler, hauth, if_true, dispatch, hm, hlk]
      simp [handleLock, hm, hle, hlock, ResponseWriter.empty, ResponseWriter.writeHeader,
        ResponseWriter.write]

/-- Witness for C4: the authenticated `lockReq` against `denyBackend` is
denied and gets the 409 with `holderLock` marshalled as its body; the same
request against a granting backend is covered by the vacuous granted
branch. -/
theorem claim4_witness :
    (denyBackend.lockable = false →
      (backendHandler denyBackend "plan" "root" "auth" "pw" lockReq ()).writer =
        ⟨some 405, strBytes ("invalid method" ++ "\n")⟩) ∧
    (denyBackend.lockable = true → lockReq.lockErr = none →
      (∀ lcur s', denyBackend.lock () lockReq.lockData = ((true, lcur, none), s') →
        (backendHandler denyBackend "plan" "root" "auth" "pw" lockReq ()).writer =
          ⟨some 200, []⟩) ∧
      (∀ lcur s', denyBackend.lock () lockReq.lockData = ((false, lcur, none), s') →
        (backendHandler denyBackend "plan" "root" "auth" "pw" lockReq ()).writer =
          ⟨some 409, jsonMarshal lcur⟩ ∧
        LockInfo.fromJson (LockInfo.toJson lcur) = Except.ok lcur)) :=
  claim4_lock_grant_deny denyBackend "plan" "root" "auth" "pw" lockReq () rfl rfl

theorem handleLock_decode_error {σ : Type} (b : BackendOps σ) (r : Request) (s : σ)
    (e : String) (he : r.lockErr = some e) :
    (handleLock b r ResponseWriter.empty s).writer.status = some 500 ∧
    ∃ tail, (handleLock b r ResponseWriter.empty s).writer.body =
      strBytes (e ++ "\n") ++ tail := by
  by_cases hL : r.method = "LOCK"
  · rcases hl : b.lock s r.lockData with ⟨⟨ok, lcur, err⟩, s'⟩
    cases ok <;> cases err <;>
      simp [handleLock, he, hL, hl, httpError, ResponseWriter.writeHeader,
        ResponseWriter.write, ResponseWriter.empty]
  · rcases hu : b.unlock s r.lockData with ⟨err, s'⟩
    cases err <;>
      simp [handleLock, he, hL, hu, httpError, ResponseWriter.writeHeader,
        ResponseWriter.write, ResponseWriter.empty]

/-- C5 counterexample: the claim says the response body is exactly the
decode error's text, but the handler keeps going after writing it — for the
authenticated LOCK request `badLockReq` against the lockable `denyBackend`,
whose `Lock` denies, the 409 branch appends the holder's JSON, so the body
is not the decode error text. -/
theorem claim5_counterexample :
    (backendHandler denyBackend "plan" "root" "auth" "pw" badLockReq ()).writer.status =
      some 500 ∧
    ¬ (backendHandler denyBackend "plan" "root" "auth" "pw" badLockReq ()).writer.body =
      strBytes ("unexpected end of JSON input" ++ "\n") := by
  exact ⟨rfl, by decide⟩

/-- C5 (amended): for every authenticated LOCK or UNLOCK request on a
lockable backend whose body fails to decode as a LockInfo, the response
status is 500 and the body begins with the decode error's text; because the
handler does not return after writing the error, the `Lock`/`UnLock` call
still runs and may append further output (the body is exactly the error
text only when that call reports success). -/
theorem claim5_amended_decode_error {σ : Type} (b : BackendOps σ)
    (action userName authUser authPassword : String) (r : Request) (s : σ) (e : String)
    (hauth : authOk r authUser authPassword = true) (hlk : b.lockable = true)
    (hm : r.method = "LOCK" ∨ r.method = "UNLOCK") (he : r.lockErr = some e) :
    (backendHandler b action userName authUser authPassword r s).writer.status = some 500 ∧
    ∃ tail, (backendHandler b action userName authUser authPassword r s).writer.body =
      strBytes (e ++ "\n") ++ tail := by
  have hred : backendHandler b action userName authUser authPassword r s
      = handleLock b r ResponseWriter.empty s := by
    rcases hm with hm | hm <;> simp [backendHandler, hauth, dispatch, hm, hlk]
  rw [hred]
  exact handleLock_decode_error b r s e he

/-- Witness for C5 (amended): `badLockReq` against `denyBackend` gets a 500
whose body starts with the decode error text. -/
theorem claim5_witness :
    (backendHandler denyBackend "plan" "root" "auth" "pw" badLockReq ()).writer.status =
      some 500 ∧
    ∃ tail, (backendHandler denyBackend "plan" "root" "auth" "pw" badLockReq ()).writer.body =
      strBytes ("unexpected end of JSON input" ++ "\n") ++ tail :=
  claim5_amended_decode_error denyBackend "plan" "root" "auth" "pw" badLockReq ()
    "unexpected end of JSON input" rfl rfl (Or.inl rfl) rfl

/-- C6: with a child command present, a child that ran and exited with any
status makes the wrapper exit with exactly that status (zero included,
since `Run` returns nil exactly on a zero exit), any other `Run` failure is
fatal, and with no child command at all the wrapper fails fatally with the
usage message. -/
theorem claim6_exit_propagation (args : List String) (code : Nat) (msg : String)
    (run : RunResult) (h : args ≠ []) :
    runChild args (childExit code) = WrapOutcome.exited code ∧
    runChild args (RunResult.otherError msg) = WrapOutcome.fatal msg ∧
    runChild [] run = WrapOutcome.fatal usageMsg := by
  have hlen : 0 < args.length := List.length_pos.mpr h
  refine ⟨?_, ?_, ?_⟩
  · by_cases hc : code = 0
    · subst hc; simp [runChild, childExit, hlen]
    · simp [runChild, childExit, hlen, hc]
  · simp [runChild, hlen]
  · simp [runChild]

/-- Witness for C6: a child `terraform plan` exiting with status 7 makes the
wrapper exit 7; a start failure is fatal; an empty argument list is fatal
with the usage message. -/
theorem claim6_witness :
    runChild ["terraform", "plan"] (childExit 7) = WrapOutcome.exited 7 ∧
    runChild ["terraform", "plan"] (RunResult.otherError "exec: not found") =
      WrapOutcome.fatal "exec: not found" ∧
    runChild [] RunResult.success = WrapOutcome.fatal usageMsg :=
  claim6_exit_propagation ["terraform", "plan"] 7 "exec: not found"
    RunResult.success (by decide)

/-- C7 counterexample: the claim says the connection variables are published
into the child's environment only and not into the parent's global process
state, but `Wrap` publishes them with `os.Setenv`: starting from a parent
environment without `TF_HTTP_ADDRESS`, the publication step leaves the
parent's own environment holding it. -/
theorem claim7_counterexample :
    lookupEnv ([] : Env) "TF_HTTP_ADDRESS" = none ∧
    lookupEnv (publishEnv ([] : Env) "http://127.0.0.1:8080/backend" "auth" "pw" false)
      "TF_HTTP_ADDRESS" = some "http://127.0.0.1:8080/backend" := by
  exact ⟨rfl, by decide⟩

theorem lookupEnv_setenv_self (env : Env) (k v : String) :
    lookupEnv (setenv env k v) k = some v := by
  induction env with
  | nil => simp [setenv, lookupEnv]
  | cons kv rest ih =>
    rcases kv with ⟨k', v'⟩
    by_cases h : k' = k <;> simp [setenv, lookupEnv, h, ih]

theorem lookupEnv_setenv_other (env : Env) (k k' v : String) (h : ¬ k = k') :
    lookupEnv (setenv env k v) k' = lookupEnv env k' := by
  have h' : ¬ k' = k := fun hh => h hh.symm
  induction env with
  | nil => simp [setenv, lookupEnv, h, h']
  | cons kv rest ih =>
    rcases kv with ⟨k₀, v₀⟩
    by_cases h0 : k₀ = k
    · subst h0; simp [setenv, lookupEnv, h, h']
    · by_cases h1 : k₀ = k' <;> simp [setenv, lookupEnv, h0, h1, h', ih]

/-- C7 (amended): the `os.Setenv` sequence of `Wrap` sets the connection
variables in this (the parent) process's own environment, which the child
then inherits: `TF_HTTP_ADDRESS`, `TF_HTTP_USERNAME` and `TF_HTTP_PASSWORD`
are always set, and `TF_HTTP_LOCK_ADDRESS` and `TF_HTTP_UNLOCK_ADDRESS`
(both equal to the address) are set exactly when `Backend.Lockable()` is
true, otherwise those two keys keep their prior bindings. -/
theorem claim7_amended_setenv_published (env : Env)
    (address authUser authPassword : String) (lockable : Bool) :
    lookupEnv (publishEnv env address authUser authPassword lockable)
      "TF_HTTP_ADDRESS" = some address ∧
    lookupEnv (publishEnv env address authUser authPassword lockable)
      "TF_HTTP_USERNAME" = some authUser ∧
    lookupEnv (publishEnv env address authUser authPassword lockable)
      "TF_HTTP_PASSWORD" = some authPassword ∧
    lookupEnv (publishEnv env address authUser authPassword lockable)
      "TF_HTTP_LOCK_ADDRESS" =
      (if lockable then some address else lookupEnv env "TF_HTTP_LOCK_ADDRESS") ∧
    lookupEnv (publishEnv env address authUser authPassword lockable)
      "TF_HTTP_UNLOCK_ADDRESS" =
      (if lockable then some address else lookupEnv env "TF_HTTP_UNLOCK_ADDRESS") ∧
    childEnv (publishEnv env address authUser authPassword lockable) =
      publishEnv env address authUser authPassword lockable := by
  cases lockable <;>
    simp [publishEnv, childEnv, lookupEnv_setenv_self, lookupEnv_setenv_other]

/-- C8: for every payload, `Set` on the file backend followed by `Get`
returns exactly that payload, whatever the lock ID and comment. -/
theorem claim8_file_set_get_roundtrip (b : FileBackend) (fs : FS) (data : Bytes)
    (lockID comment : String) :
    fileGet b (fileSet b fs data lockID comment).2 =
      ((some data, none), (fileSet b fs data lockID comment).2) := by
  have hread : ∀ fs' : FS, ∀ p : String, ∀ d : Bytes, fsRead (fsWrite fs' p d) p = some d := by
    intro fs' p d
    induction fs' with
    | nil => simp [fsWrite, fsRead]
    | cons pd rest ih =>
      rcases pd with ⟨p₀, d₀⟩
      by_cases h : p₀ = p <;> simp [fsWrite, fsRead, h, ih]
  simp [fileGet, fileSet, hread]

/-- C9: whatever values the time-seeded generator draws, the session
password `Wrap` generates is exactly 32 characters, each an upper- or
lower-case Latin letter, and the session username is the fixed constant
`auth`. -/
theorem claim9_password_shape (intn : Nat → Nat) :
    (wrapAuthPassword intn).length = 32 ∧
    (∀ c ∈ (wrapAuthPassword intn).data, c.isAlpha = true) ∧
    wrapAuthUser = "auth" := by
  have halpha : ∀ c ∈ letters, c.isAlpha = true := by decide
  refine ⟨?_, ?_, rfl⟩
  · simp [wrapAuthPassword, randSeq, String.length]
  · intro c hc
    simp only [wrapAuthPassword, randSeq, String.mk, List.mem_map] at hc
    rcases hc with ⟨i, _, rfl⟩
    exact halpha _ (List.get_mem letters _ _)

/-- C10: the file backend's `Set` ignores the lock ID and the comment
entirely: with the same data and prior state, any two metadata choices give
identical results and stored state. -/
theorem claim10_file_set_ignores_metadata (b : FileBackend) (fs : FS) (data : Bytes)
    (lockID₁ comment₁ lockID₂ comment₂ : String) :
    fileSet b fs data lockID₁ comment₁ = fileSet b fs data lockID₂ comment₂ := rfl
